import Mathlib

/-!
# Verification of the owncloud-client OAuth2/PKCE core and update dialog

This development embeds, in Lean 4, the OAuth 2.0 Authorization Code flow
with PKCE of `src/libsync/creds/oauth.h` and the update-prompt dialog of
`src/gui/updater/newversionavailabledialog.cpp`, and proves the behavioural
properties stated for them.

The repository ships only the class declaration (`oauth.h`) for the OAuth
session; the member-function bodies live in a translation unit that is not
part of this source tree.  Where a definition below embeds behaviour whose
implementation is absent, its doc comment starts with `Modelled from the
spec:` and names the missing piece; such definitions follow the
specification's words (state machine §4.7, component contracts §4.1–§4.6).
The dialog's implementation is present and is embedded directly.
-/

namespace OwncloudOAuth

/-! ## Bytes and URL-safe base64

Modelled from the spec (§4.1): the PKCE challenge derivation "hashes the
verifier with a fixed, standard digest and encodes it URL-safely without
padding", and "the verifier's own encoding uses the same URL-safe alphabet".
Bytes are `Nat` values below 256. -/

/-- The 64 characters of the URL-safe base64 alphabet (RFC 4648 §5). -/
def base64UrlAlphabet : List Char :=
  [ 'A','B','C','D','E','F','G','H','I','J','K','L','M','N','O','P',
    'Q','R','S','T','U','V','W','X','Y','Z',
    'a','b','c','d','e','f','g','h','i','j','k','l','m','n','o','p',
    'q','r','s','t','u','v','w','x','y','z',
    '0','1','2','3','4','5','6','7','8','9','-','_' ]

/-- Character for a 6-bit group. -/
def b64Char (n : Nat) : Char := base64UrlAlphabet.getD (n % 64) 'A'

/-- URL-safe base64 without padding, as characters: groups of three bytes
become four characters; a trailing group of one or two bytes becomes two or
three characters and no `=` padding is emitted. -/
def base64UrlNoPadChars : List Nat → List Char
  | [] => []
  | [a] =>
      let w := (a % 256) * 65536
      [b64Char (w / 262144), b64Char (w / 4096 % 64)]
  | [a, b] =>
      let w := (a % 256) * 65536 + (b % 256) * 256
      [b64Char (w / 262144), b64Char (w / 4096 % 64), b64Char (w / 64 % 64)]
  | a :: b :: c :: rest =>
      let w := (a % 256) * 65536 + (b % 256) * 256 + (c % 256)
      b64Char (w / 262144) :: b64Char (w / 4096 % 64) :: b64Char (w / 64 % 64)
        :: b64Char (w % 64) :: base64UrlNoPadChars rest

/-- URL-safe base64 without padding, as a string. -/
def base64UrlNoPad (bs : List Nat) : String := String.mk (base64UrlNoPadChars bs)

/-- The bytes of a string (code points; the strings involved are ASCII). -/
def strBytes (s : String) : List Nat := s.data.map Char.toNat

/-! ## SHA-256

Modelled from the spec (§4.1 together with §4.4's `code_challenge_method=S256`):
the "fixed, standard digest" used for the PKCE challenge is SHA-256
(FIPS 180-4).  All 32-bit words are `Nat` values reduced mod `2^32`. -/

/-- `2^32`, the modulus of the 32-bit words of SHA-256. -/
def M32 : Nat := 4294967296

/-- 32-bit addition. -/
def add32 (a b : Nat) : Nat := (a + b) % M32

/-- Right-rotation of a 32-bit word by `n` bits. -/
def rotr32 (n x : Nat) : Nat := ((x / 2 ^ n) + (x % 2 ^ n) * 2 ^ (32 - n)) % M32

/-- Bitwise complement of a 32-bit word. -/
def not32 (x : Nat) : Nat := Nat.xor x (M32 - 1)

/-- SHA-256 `Ch` function. -/
def ch32 (x y z : Nat) : Nat := Nat.xor (Nat.land x y) (Nat.land (not32 x) z)

/-- SHA-256 `Maj` function. -/
def maj32 (x y z : Nat) : Nat :=
  Nat.xor (Nat.land x y) (Nat.xor (Nat.land x z) (Nat.land y z))

/-- SHA-256 big sigma-0. -/
def bigSigma0 (x : Nat) : Nat := Nat.xor (rotr32 2 x) (Nat.xor (rotr32 13 x) (rotr32 22 x))

/-- SHA-256 big sigma-1. -/
def bigSigma1 (x : Nat) : Nat := Nat.xor (rotr32 6 x) (Nat.xor (rotr32 11 x) (rotr32 25 x))

/-- SHA-256 small sigma-0. -/
def smallSigma0 (x : Nat) : Nat := Nat.xor (rotr32 7 x) (Nat.xor (rotr32 18 x) (x / 8))

/-- SHA-256 small sigma-1. -/
def smallSigma1 (x : Nat) : Nat := Nat.xor (rotr32 17 x) (Nat.xor (rotr32 19 x) (x / 1024))

/-- The 64 SHA-256 round constants (FIPS 180-4 §4.2.2), as decimal
naturals. -/
def shaK : List Nat :=
  [ 1116352408, 1899447441, 3049323471, 3921009573,
    961987163, 1508970993, 2453635748, 2870763221,
    3624381080, 310598401, 607225278, 1426881987,
    1925078388, 2162078206, 2614888103, 3248222580,
    3835390401, 4022224774, 264347078, 604807628,
    770255983, 1249150122, 1555081692, 1996064986,
    2554220882, 2821834349, 2952996808, 3210313671,
    3336571891, 3584528711, 113926993, 338241895,
    666307205, 773529912, 1294757372, 1396182291,
    1695183700, 1986661051, 2177026350, 2456956037,
    2730485921, 2820302411, 3259730800, 3345764771,
    3516065817, 3600352804, 4094571909, 275423344,
    430227734, 506948616, 659060556, 883997877,
    958139571, 1322822218, 1537002063, 1747873779,
    1955562222, 2024104815, 2227730452, 2361852424,
    2428436474, 2756734187, 3204031479, 3329325298 ]

/-- The SHA-256 initial hash value (FIPS 180-4 §5.3.3), as decimal
naturals. -/
def shaH0 : List Nat :=
  [ 1779033703, 3144134277, 1013904242, 2773480762,
    1359893119, 2600822924, 528734635, 1541459225 ]

/-- `n` bytes of `v`, big-endian. -/
def beBytes : Nat → Nat → List Nat
  | 0, _ => []
  | k + 1, v => beBytes k (v / 256) ++ [v % 256]

/-- One big-endian 32-bit word from four bytes. -/
def wordOfBytes (bs : List Nat) : Nat :=
  bs.foldl (fun acc b => acc * 256 + b % 256) 0

/-- The first 16 message-schedule words of a 64-byte block. -/
def blockWords : Nat → List Nat → List Nat
  | 0, _ => []
  | k + 1, bs => wordOfBytes (bs.take 4) :: blockWords k (bs.drop 4)

/-- One message-schedule extension step: append
`sigma1(w[t-2]) + w[t-7] + sigma0(w[t-15]) + w[t-16]`. -/
def scheduleStep (ws : List Nat) : List Nat :=
  ws ++ [add32 (add32 (smallSigma1 (ws.getD (ws.length - 2) 0)) (ws.getD (ws.length - 7) 0))
           (add32 (smallSigma0 (ws.getD (ws.length - 15) 0)) (ws.getD (ws.length - 16) 0))]

/-- Extend the message schedule by `n` words. -/
def extendSchedule : Nat → List Nat → List Nat
  | 0, ws => ws
  | n + 1, ws => extendSchedule n (scheduleStep ws)

/-- One compression round on the working variables `[a,b,c,d,e,f,g,h]`,
with round constant `k` and schedule word `w`. -/
def shaRound (st : List Nat) (kw : Nat × Nat) : List Nat :=
  match st with
  | [a, b, c, d, e, f, g, h] =>
      let t1 := add32 (add32 (add32 h (bigSigma1 e)) (add32 (ch32 e f g) kw.1)) kw.2
      let t2 := add32 (bigSigma0 a) (maj32 a b c)
      [add32 t1 t2, a, b, c, add32 d t1, e, f, g]
  | other => other

/-- Process one 64-byte block: run the 64 rounds and add the result into the
chaining hash. -/
def shaCompress (h : List Nat) (block : List Nat) : List Nat :=
  let ws := extendSchedule 48 (blockWords 16 block)
  let st := (shaK.zip ws).foldl shaRound h
  List.zipWith add32 h st

/-- Split a byte list into 64-byte chunks (the fuel argument bounds the
number of chunks and is instantiated with the list's length). -/
def chunks64 : Nat → List Nat → List (List Nat)
  | 0, _ => []
  | _, [] => []
  | n + 1, bs => bs.take 64 :: chunks64 n (bs.drop 64)

/-- SHA-256 padding: `0x80`, zeros to 56 mod 64, then the bit length as
eight big-endian bytes. -/
def shaPad (msg : List Nat) : List Nat :=
  let z := (119 - msg.length % 64) % 64
  msg ++ 128 :: List.replicate z 0 ++ beBytes 8 (msg.length * 8)

/-- SHA-256 of a byte list, as 32 bytes. -/
def sha256 (msg : List Nat) : List Nat :=
  let padded := shaPad msg
  let final := (chunks64 padded.length padded).foldl shaCompress shaH0
  final.foldr (fun w acc => beBytes 4 w ++ acc) []

/-- Modelled from the spec (§4.1, §4.4): the PKCE code challenge is the
SHA-256 digest of the verifier's bytes, URL-safe base64 encoded without
padding (`code_challenge_method=S256`). -/
def codeChallenge (verifier : String) : String :=
  base64UrlNoPad (sha256 (strBytes verifier))

/-! ## Data model of the OAuth session

The enum `Result` is declared in `oauth.h`; the remaining types embed the
data model of spec §3 (DiscoveryDocument, CallbackResult, TokenSet) for the
member functions whose bodies are not in this source tree. -/

/-- `OAuth::Result` from `oauth.h`. -/
inductive OAuthResult
  | NotSupported
  | LoggedIn
  | Error
deriving DecidableEq, Repr

/-- Discovery document (spec §3, §4.2): authorization endpoint, token
endpoint, optional registration endpoint. -/
structure DiscoveryDoc where
  authorization_endpoint : String
  token_endpoint : String
  registration_endpoint : Option String
deriving DecidableEq, Repr

/-- The ways a discovery fetch can fail (spec §4.2): non-2xx status,
network error, or malformed body. -/
inductive FetchFailure
  | non2xx (status : Nat)
  | networkError
  | malformedBody
deriving DecidableEq, Repr

/-- Outcome of the `.well-known/openid-configuration` fetch. -/
inductive WellKnownOutcome
  | success (doc : DiscoveryDoc)
  | failure (f : FetchFailure)
deriving DecidableEq, Repr

/-- CallbackResult (spec §3, §4.3): the `code`, `state` and `error` query
parameters extracted from the loopback HTTP request. -/
structure Callback where
  code : Option String
  state : Option String
  error : Option String
deriving DecidableEq, Repr

/-- Outcome of a token-endpoint POST (spec §4.5): JSON with required
`access_token`, optional `refresh_token` and `user_id`; or a transport or
parse error. -/
inductive TokenReply
  | success (access_token : String) (refresh_token : Option String) (user_id : Option String)
  | failure (err : String)
deriving DecidableEq, Repr

/-- Modelled from the spec: the states of the §4.7 state machine (the
bodies driving `oauth.h`'s flow are not in this tree).  `destroyed` stands
for the session object having been deleted (cancellation, spec §5). -/
inductive ProtoState
  | idle
  | resolvingDiscovery
  | registering
  | awaitingBrowserRedirect
  | exchangingToken
  | resolvingIdentity (accessToken : String) (refreshToken : String)
  | refreshing (refreshToken : String)
  | finalized (r : OAuthResult)
  | destroyed
deriving DecidableEq, Repr

/-- Observable actions of one step of the session: network requests,
listener lifecycle, browser opening, and the signals declared in `oauth.h`
(`result`, `authorisationLinkChanged`, `fetchWellKnownFinished`,
`refreshFinished`, `refreshError`). -/
inductive Effect
  | httpGetDiscovery (url : String)
  | tokenPost (url : String) (body : List (String × String))
  | identityLookup
  | registrationPost (url : String)
  | openBrowser (base : String) (query : List (String × String))
  | listenerStart
  | listenerClose
  | result (r : OAuthResult) (user : String) (token : String) (refreshToken : String)
  | authorisationLinkChanged (base : String) (query : List (String × String))
  | fetchWellKnownFinished
  | refreshFinished (accessToken : String) (refreshToken : String)
  | refreshError (err : String)
  | reportStartError
deriving DecidableEq, Repr

/-- Inputs that resume the session: the public entry points of `oauth.h`
(`startAuthentication`, `refreshAuthentication`, destruction) and the
completion notifications of its asynchronous collaborators (spec §5).
`startCalled` carries the environment's randomness stream and the
OS-chosen ephemeral loopback port. -/
inductive Event
  | startCalled (entropy : List Nat) (port : Nat)
  | wellKnownReply (o : WellKnownOutcome)
  | registrationReply (clientId : String) (clientSecret : String)
  | callbackReceived (cb : Callback)
  | tokenReply (r : TokenReply)
  | identityReply (user : Option String)
  | refreshCalled (refreshToken : String)
  | destroyCalled
deriving DecidableEq, Repr

/-- The session: the data members of `OAuth` in `oauth.h` (underscore
names kept), plus the modelled control state `proto`, the listener's
open/closed flag, and the ephemeral port. -/
structure Session where
  _serverUrl : String
  _davUser : String
  _clientId : String
  _clientSecret : String
  _isRefreshingToken : Bool
  _authEndpoint : String
  _tokenEndpoint : String
  _registrationEndpoint : Option String
  _redirectUrl : String
  _pkceCodeVerifier : String
  _state : String
  proto : ProtoState
  listenerOpen : Bool
  port : Nat
deriving DecidableEq, Repr

/-! ## Operations -/

/-- Join a relative path under a base URL. -/
def urlJoin (base path : String) : String :=
  if base.endsWith "/" then base ++ path else base ++ "/" ++ path

/-- The discovery URL (spec §4.2): `<serverUrl>/.well-known/openid-configuration`. -/
def wellKnownUrl (serverUrl : String) : String :=
  urlJoin serverUrl ".well-known/openid-configuration"

/-- Fixed fallback relative path of the authorization endpoint (spec §4.2). -/
def fallbackAuthPath : String := "apps/oauth2/authorize"

/-- Fixed fallback relative path of the token endpoint (spec §4.2). -/
def fallbackTokenPath : String := "apps/oauth2/api/v1/token"

/-- Modelled from the spec (§4.2): the fallback discovery document built
from the fixed relative paths under the server base URL. -/
def fallbackWellKnown (serverUrl : String) : DiscoveryDoc :=
  { authorization_endpoint := urlJoin serverUrl fallbackAuthPath
    token_endpoint := urlJoin serverUrl fallbackTokenPath
    registration_endpoint := none }

/-- Modelled from the spec (§4.2): a successful fetch yields the parsed
document; any failure resolves to the fallback document instead. -/
def resolveWellKnown (serverUrl : String) : WellKnownOutcome → DiscoveryDoc
  | .success doc => doc
  | .failure _ => fallbackWellKnown serverUrl

/-- Modelled from the spec (§4.1, §3): byte count of randomness drawn for
the PKCE code verifier — fixed, and large enough that the encoded verifier
meets the RFC minimum length. -/
def pkceRandomSize : Nat := 32

/-- Modelled from the spec (§3): byte count of randomness drawn for the
CSRF state token. -/
def csrfRandomSize : Nat := 32

/-- Modelled from the spec (§4.1): `OAuth::generateRandomString` (body not
in this tree) returns `size` bytes drawn from the environment's
cryptographically secure stream, or nothing when the stream cannot supply
them. -/
def generateRandomString (entropy : List Nat) (size : Nat) : Option (List Nat) :=
  if size ≤ entropy.length then some ((entropy.take size).map (fun b => b % 256)) else none

/-- Modelled from the spec (§4.4): `OAuth::authorisationLink` (body not in
this tree) — the authorization endpoint together with the query
`response_type=code, client_id, redirect_uri, state, code_challenge,
code_challenge_method=S256`. -/
def authorisationLink (s : Session) : String × List (String × String) :=
  (s._authEndpoint,
   [("response_type", "code"),
    ("client_id", s._clientId),
    ("redirect_uri", s._redirectUrl),
    ("state", s._state),
    ("code_challenge", codeChallenge s._pkceCodeVerifier),
    ("code_challenge_method", "S256")])

/-- Modelled from the spec (§4.5): form body of the
authorization-code-for-token exchange. -/
def codeExchangeBody (s : Session) (code : String) : List (String × String) :=
  [("grant_type", "authorization_code"),
   ("code", code),
   ("redirect_uri", s._redirectUrl),
   ("code_verifier", s._pkceCodeVerifier),
   ("client_id", s._clientId)]
  ++ (if s._clientSecret = "" then [] else [("client_secret", s._clientSecret)])

/-- Modelled from the spec (§4.5): form body of the refresh exchange. -/
def refreshBody (s : Session) (refreshToken : String) : List (String × String) :=
  [("grant_type", "refresh_token"),
   ("refresh_token", refreshToken),
   ("client_id", s._clientId)]
  ++ (if s._clientSecret = "" then [] else [("client_secret", s._clientSecret)])

/-- The loopback redirect URI (spec §4.3): `http://localhost:<port>`. -/
def redirectUri (port : Nat) : String := "http://localhost:" ++ toString port

/-- Modelled from the spec (§4.3, §9): entry into `AwaitingBrowserRedirect`
acquires the listening socket, publishes the authorization link and opens
the browser. -/
def enterBrowserRedirect (s : Session) : Session × List Effect :=
  let s2 := { s with proto := .awaitingBrowserRedirect
                     listenerOpen := true
                     _redirectUrl := redirectUri s.port }
  (s2, [.listenerStart,
        .authorisationLinkChanged (authorisationLink s2).1 (authorisationLink s2).2,
        .openBrowser (authorisationLink s2).1 (authorisationLink s2).2])

/-- Modelled from the spec (§4.7, §4.2, §4.3, §4.5, §5): one transition of
the session state machine.  Bodies of `startAuthentication`,
`refreshAuthentication`, `fetchWellKnown`, the callback servicing and
`finalize` are not in this tree; each branch follows the spec's words.
Events that do not apply in the current state are ignored, except that
calling start outside `Idle` is a reported programming error (§4.7). -/
def step (s : Session) (e : Event) : Session × List Effect :=
  match s.proto, e with
  | .idle, .startCalled entropy port =>
      match generateRandomString entropy pkceRandomSize,
            generateRandomString (entropy.drop pkceRandomSize) csrfRandomSize with
      | some pk, some st =>
          ({ s with proto := .resolvingDiscovery
                    _pkceCodeVerifier := base64UrlNoPad pk
                    _state := base64UrlNoPad st
                    port := port },
           [.httpGetDiscovery (wellKnownUrl s._serverUrl)])
      | _, _ => ({ s with proto := .finalized .Error }, [.result .Error "" "" ""])
  | .idle, .refreshCalled rt =>
      let s2 := { s with _isRefreshingToken := true, proto := .refreshing rt }
      (s2, [.tokenPost s2._tokenEndpoint (refreshBody s2 rt)])
  | .resolvingDiscovery, .wellKnownReply o =>
      let doc := resolveWellKnown s._serverUrl o
      let s2 := { s with _authEndpoint := doc.authorization_endpoint
                         _tokenEndpoint := doc.token_endpoint
                         _registrationEndpoint := doc.registration_endpoint }
      if s2._clientId = "" ∧ doc.registration_endpoint.isSome then
        ({ s2 with proto := .registering },
         [.fetchWellKnownFinished, .registrationPost (doc.registration_endpoint.getD "")])
      else
        let s3 := enterBrowserRedirect s2
        (s3.1, .fetchWellKnownFinished :: s3.2)
  | .registering, .registrationReply cid sec =>
      let s3 := enterBrowserRedirect { s with _clientId := cid, _clientSecret := sec }
      s3
  | .awaitingBrowserRedirect, .callbackReceived cb =>
      match cb.code, cb.error with
      | some c, none =>
          if cb.state = some s._state then
            ({ s with proto := .exchangingToken, listenerOpen := false },
             [.listenerClose, .tokenPost s._tokenEndpoint (codeExchangeBody s c)])
          else
            ({ s with proto := .finalized .Error, listenerOpen := false },
             [.listenerClose, .result .Error "" "" ""])
      | _, _ =>
          ({ s with proto := .finalized .Error, listenerOpen := false },
           [.listenerClose, .result .Error "" "" ""])
  | .exchangingToken, .tokenReply r =>
      match r with
      | .failure _ => ({ s with proto := .finalized .Error }, [.result .Error "" "" ""])
      | .success tok rtk uid =>
          match uid with
          | some u => ({ s with proto := .finalized .LoggedIn },
                       [.result .LoggedIn u tok (rtk.getD "")])
          | none => ({ s with proto := .resolvingIdentity tok (rtk.getD "") },
                     [.identityLookup])
  | .resolvingIdentity tok rtk, .identityReply r =>
      match r with
      | some u => ({ s with proto := .finalized .LoggedIn }, [.result .LoggedIn u tok rtk])
      | none => ({ s with proto := .finalized .Error }, [.result .Error "" "" ""])
  | .refreshing rt0, .tokenReply r =>
      match r with
      | .success tok rtk _ => ({ s with proto := .finalized .LoggedIn },
                               [.refreshFinished tok (rtk.getD rt0)])
      | .failure err => ({ s with proto := .finalized .Error }, [.refreshError err])
  | .destroyed, _ => (s, [])
  | _, .destroyCalled =>
      ({ s with proto := .destroyed, listenerOpen := false },
       if s.listenerOpen then [.listenerClose] else [])
  | _, .startCalled _ _ => (s, [.reportStartError])
  | _, _ => (s, [])

/-- A fresh session for a server URL, dav user and optional preconfigured
client id/secret — the `OAuth` constructor state. -/
def initSession (serverUrl davUser clientId clientSecret : String) : Session :=
  { _serverUrl := serverUrl
    _davUser := davUser
    _clientId := clientId
    _clientSecret := clientSecret
    _isRefreshingToken := false
    _authEndpoint := urlJoin serverUrl fallbackAuthPath
    _tokenEndpoint := urlJoin serverUrl fallbackTokenPath
    _registrationEndpoint := none
    _redirectUrl := ""
    _pkceCodeVerifier := ""
    _state := ""
    proto := .idle
    listenerOpen := false
    port := 0 }

/-- Run the session over a list of events, collecting all effects. -/
def run (s : Session) : List Event → Session × List Effect
  | [] => (s, [])
  | e :: es =>
      let se := step s e
      let rest := run se.1 es
      (rest.1, se.2 ++ rest.2)

/-! ## Effect classifiers -/

/-- Is the effect the discovery GET? -/
def isDiscoveryFetch : Effect → Bool
  | .httpGetDiscovery _ => true
  | _ => false

/-- Is the effect a token-endpoint POST? -/
def isTokenPost : Effect → Bool
  | .tokenPost _ _ => true
  | _ => false

/-- Is the effect the identity lookup? -/
def isIdentityLookup : Effect → Bool
  | .identityLookup => true
  | _ => false

/-- Is the effect the browser opening? -/
def isOpenBrowser : Effect → Bool
  | .openBrowser _ _ => true
  | _ => false

/-- Is the effect the listener acquiring its socket? -/
def isListenerStart : Effect → Bool
  | .listenerStart => true
  | _ => false

/-- Is the effect the listener releasing its socket? -/
def isListenerClose : Effect → Bool
  | .listenerClose => true
  | _ => false

/-- Is the effect the `result` signal? -/
def isResultSignal : Effect → Bool
  | .result _ _ _ _ => true
  | _ => false

/-- Is the effect one of the refresh-outcome signals (`refreshFinished` or
`refreshError`)? -/
def isRefreshSignal : Effect → Bool
  | .refreshFinished _ _ => true
  | .refreshError _ => true
  | _ => false

/-- Flow-progress notifications and network/browser/listener activity: every
effect except releasing the socket and the reported programming error. -/
def isFlowEffect : Effect → Bool
  | .listenerClose => false
  | .reportStartError => false
  | _ => true

/-- A progress order on the control states: every transition of `step` is
non-decreasing in it, so no state of the interactive pipeline is ever
re-entered. -/
def phase : ProtoState → Nat
  | .idle => 0
  | .resolvingDiscovery => 1
  | .registering => 2
  | .awaitingBrowserRedirect => 3
  | .exchangingToken => 4
  | .refreshing _ => 4
  | .resolvingIdentity _ _ => 5
  | .finalized _ => 6
  | .destroyed => 7

/-- The listening socket is open exactly in `AwaitingBrowserRedirect`
(spec §9: scoped acquisition). -/
def ListenerInv (s : Session) : Prop :=
  s.listenerOpen = true ↔ s.proto = .awaitingBrowserRedirect

/-- A step services a loopback callback when one arrives while the session
is in `AwaitingBrowserRedirect`. -/
def servicedCallback (s : Session) (e : Event) : Bool :=
  (match e with | .callbackReceived _ => true | _ => false)
    && decide (s.proto = .awaitingBrowserRedirect)

/-- Number of serviced callbacks along a run. -/
def servicedCount : Session → List Event → Nat
  | _, [] => 0
  | s, e :: es => (if servicedCallback s e then 1 else 0) + servicedCount (step s e).1 es

/-- Emission invariant: with `r` `result` signals and `f` refresh-outcome
signals emitted so far, a finalized session has emitted exactly one
notification — through `result` for the interactive flow, through
`refreshFinished`/`refreshError` for a refresh (as told apart by
`_isRefreshingToken`) — and a live one has emitted none. -/
def EmitInv (s : Session) (r f : Nat) : Prop :=
  match s.proto with
  | .finalized _ => if s._isRefreshingToken then f = 1 ∧ r = 0 else r = 1 ∧ f = 0
  | .destroyed => r + f ≤ 1
  | .refreshing _ => s._isRefreshingToken = true ∧ r = 0 ∧ f = 0
  | _ => s._isRefreshingToken = false ∧ r = 0 ∧ f = 0

/-- Interactive-only activity: discovery fetch, browser opening, listener
lifecycle, or identity lookup — never part of a refresh. -/
def isInteractiveActivity (x : Effect) : Bool :=
  isDiscoveryFetch x || isOpenBrowser x || isListenerStart x || isListenerClose x
    || isIdentityLookup x

/-- States reachable after `refreshAuthentication` took over the session. -/
def RefreshPath (s : Session) : Prop :=
  (∃ rt, s.proto = .refreshing rt) ∨ (∃ r0, s.proto = .finalized r0) ∨ s.proto = .destroyed

/-- States of the interactive flow after the token exchange answered
without a `user_id`. -/
def PostExchangePath (s : Session) : Prop :=
  (∃ a b, s.proto = .resolvingIdentity a b) ∨ (∃ r0, s.proto = .finalized r0) ∨
    s.proto = .destroyed

/-- Is the effect a `result` signal carrying `NotSupported`? -/
def isNotSupportedResult : Effect → Bool
  | .result .NotSupported _ _ _ => true
  | _ => false

/-! ## Concrete sample data -/

/-- A concrete randomness stream, for instantiating the theorems. -/
def sampleEntropy : List Nat := List.range 64

/-- A concrete fresh session. -/
def wBase : Session := initSession "https://example.test" "alice" "cid" ""

/-- A concrete session waiting on its discovery fetch. -/
def wResolving : Session := { wBase with proto := .resolvingDiscovery }

/-- A concrete session awaiting the browser redirect. -/
def wAwait : Session :=
  { wBase with proto := .awaitingBrowserRedirect, listenerOpen := true,
               _state := "S", _pkceCodeVerifier := "V",
               _redirectUrl := redirectUri 8080 }

/-- A concrete session awaiting its token exchange. -/
def wExchanging : Session := { wBase with proto := .exchangingToken }

/-- A concrete session awaiting its refresh exchange. -/
def wRefreshing : Session :=
  { wBase with proto := .refreshing "R", _isRefreshingToken := true }

/-- A concrete event list driving `wBase` to `Finalized{Error}`: start,
discovery failure, matching callback, failed token exchange.  The `state`
echoed by the callback is the base64url encoding of bytes 32–63 of
`sampleEntropy`. -/
def esFinal : List Event :=
  [ .startCalled sampleEntropy 8080,
    .wellKnownReply (.failure .networkError),
    .callbackReceived { code := some "ABC",
                        state := some "ICEiIyQlJicoKSorLC0uLzAxMjM0NTY3ODk6Ozw9Pj8",
                        error := none },
    .tokenReply (.failure "boom") ]

end OwncloudOAuth

namespace NewVersionAvailableDialog

/-! ## The update-prompt dialog

Embeds `src/gui/updater/newversionavailabledialog.cpp`: the three slots
emit their choice-specific signal followed by `finished`, and the
constructor connects one button to each slot. -/

/-- The signals of `NewVersionAvailableDialog`. -/
inductive DialogSignal
  | versionSkipped
  | noUpdateNow
  | updateNow
  | finished
deriving DecidableEq, Repr

/-- `NewVersionAvailableDialog::skipVersion`: emits `versionSkipped`, then
`finished`. -/
def skipVersion : List DialogSignal := [.versionSkipped, .finished]

/-- `NewVersionAvailableDialog::notNow`: emits `noUpdateNow`, then
`finished`. -/
def notNow : List DialogSignal := [.noUpdateNow, .finished]

/-- `NewVersionAvailableDialog::getUpdate`: emits `updateNow`, then
`finished`. -/
def getUpdate : List DialogSignal := [.updateNow, .finished]

/-- The user's choice: one of the three buttons the constructor adds. -/
inductive UserChoice
  | skipThisVersion
  | skipThisTime
  | getUpdate
deriving DecidableEq, Repr

/-- The constructor's `connect` calls: the "Skip this version" button runs
`skipVersion`, the "Skip this time" button runs `notNow`, the "Get update"
button runs `getUpdate`. -/
def slotFor : UserChoice → List DialogSignal
  | .skipThisVersion => skipVersion
  | .skipThisTime => notNow
  | .getUpdate => getUpdate

/-- The choice-specific signal each choice is expected to emit. -/
def choiceSignal : UserChoice → DialogSignal
  | .skipThisVersion => .versionSkipped
  | .skipThisTime => .noUpdateNow
  | .getUpdate => .updateNow

end NewVersionAvailableDialog

namespace OwncloudOAuth

/-! ## Step lemmas -/

theorem step_phase_mono (s : Session) (e : Event) :
    phase s.proto ≤ phase (step s e).1.proto := by
  cases e with
  | startCalled entropy port =>
      cases h1 : generateRandomString entropy pkceRandomSize <;>
        cases h2 : generateRandomString (entropy.drop pkceRandomSize) csrfRandomSize <;>
        cases hp : s.proto <;>
        simp_all [step, phase]
  | wellKnownReply o =>
      cases hp : s.proto <;> simp only [step, hp, phase] <;> try omega
      by_cases hc : s._clientId = "" ∧ (resolveWellKnown s._serverUrl o).registration_endpoint.isSome = true
      · rw [if_pos hc]; simp [phase]
      · rw [if_neg hc]; simp [enterBrowserRedirect, phase]
  | registrationReply cid sec =>
      cases hp : s.proto <;> simp_all [step, enterBrowserRedirect, phase]
  | callbackReceived cb =>
      cases hp : s.proto <;> simp only [step, hp, phase] <;> try omega
      cases hcode : cb.code <;> cases herr : cb.error <;>
        simp only [hcode, herr] <;> try simp [phase]
      by_cases hcs : cb.state = some s._state
      · rw [if_pos hcs]; simp [phase]
      · rw [if_neg hcs]; simp [phase]
  | tokenReply r =>
      cases r with
      | success tok rtk uid =>
          cases uid <;> cases hp : s.proto <;> simp_all [step, phase]
      | failure err =>
          cases hp : s.proto <;> simp_all [step, phase]
  | identityReply user =>
      cases user <;> cases hp : s.proto <;> simp_all [step, phase]
  | refreshCalled rt =>
      cases hp : s.proto <;> simp_all [step, phase]
  | destroyCalled =>
      cases hL : s.listenerOpen <;> cases hp : s.proto <;> simp_all [step, phase]

theorem step_listenerInv (s : Session) (e : Event) (h : ListenerInv s) :
    ListenerInv (step s e).1 := by
  unfold ListenerInv at h ⊢
  cases e with
  | startCalled entropy port =>
      cases h1 : generateRandomString entropy pkceRandomSize <;>
        cases h2 : generateRandomString (entropy.drop pkceRandomSize) csrfRandomSize <;>
        cases hp : s.proto <;>
        simp_all [step]
  | wellKnownReply o =>
      cases hp : s.proto <;> simp only [step, hp] <;> try simp_all
      by_cases hc : s._clientId = "" ∧ (resolveWellKnown s._serverUrl o).registration_endpoint.isSome = true
      · rw [if_pos hc]; simp
      · rw [if_neg hc]; simp [enterBrowserRedirect]
  | registrationReply cid sec =>
      cases hp : s.proto <;> simp_all [step, enterBrowserRedirect]
  | callbackReceived cb =>
      cases hp : s.proto <;> simp only [step, hp] <;> try simp_all
      cases hcode : cb.code <;> cases herr : cb.error <;>
        simp only [hcode, herr] <;> try simp_all
      by_cases hcs : cb.state = some s._state
      · rw [if_pos hcs]; simp
      · rw [if_neg hcs]; simp
  | tokenReply r =>
      cases r with
      | success tok rtk uid =>
          cases uid <;> cases hp : s.proto <;> simp_all [step]
      | failure err =>
          cases hp : s.proto <;> simp_all [step]
  | identityReply user =>
      cases user <;> cases hp : s.proto <;> simp_all [step]
  | refreshCalled rt =>
      cases hp : s.proto <;> simp_all [step]
  | destroyCalled =>
      cases hL : s.listenerOpen <;> cases hp : s.proto <;> simp_all [step]

/-- Socket balance of one step: closes emitted plus the resulting open
socket equal starts emitted plus the previous open socket. -/
theorem step_close_balance (s : Session) (e : Event) (h : ListenerInv s) :
    (step s e).2.countP isListenerClose + (if (step s e).1.listenerOpen then 1 else 0)
      = (step s e).2.countP isListenerStart + (if s.listenerOpen then 1 else 0) := by
  unfold ListenerInv at h
  cases e with
  | startCalled entropy port =>
      cases h1 : generateRandomString entropy pkceRandomSize <;>
        cases h2 : generateRandomString (entropy.drop pkceRandomSize) csrfRandomSize <;>
        cases hp : s.proto <;>
        simp_all [step, isListenerClose, isListenerStart]
  | wellKnownReply o =>
      cases hp : s.proto <;> simp only [step, hp] <;>
        try simp_all [isListenerClose, isListenerStart]
      by_cases hc : s._clientId = "" ∧ (resolveWellKnown s._serverUrl o).registration_endpoint.isSome = true
      · rw [if_pos hc]; simp_all [isListenerClose, isListenerStart]
      · rw [if_neg hc]; simp_all [enterBrowserRedirect, isListenerClose, isListenerStart]
  | registrationReply cid sec =>
      cases hp : s.proto <;>
        simp_all [step, enterBrowserRedirect, isListenerClose, isListenerStart]
  | callbackReceived cb =>
      cases hp : s.proto <;> simp only [step, hp] <;>
        try simp_all [isListenerClose, isListenerStart]
      cases hcode : cb.code <;> cases herr : cb.error <;>
        simp only [hcode, herr] <;>
        try simp_all [isListenerClose, isListenerStart]
      by_cases hcs : cb.state = some s._state <;>
        simp_all [isListenerClose, isListenerStart]
  | tokenReply r =>
      cases r with
      | success tok rtk uid =>
          cases uid <;> cases hp : s.proto <;>
            simp_all [step, isListenerClose, isListenerStart]
      | failure err =>
          cases hp : s.proto <;> simp_all [step, isListenerClose, isListenerStart]
  | identityReply user =>
      cases user <;> cases hp : s.proto <;>
        simp_all [step, isListenerClose, isListenerStart]
  | refreshCalled rt =>
      cases hp : s.proto <;> simp_all [step, isListenerClose, isListenerStart]
  | destroyCalled =>
      cases hL : s.listenerOpen <;> cases hp : s.proto <;>
        simp_all [step, isListenerClose, isListenerStart]

/-- One step emits at most one `listenerStart`, and only on the transition
that enters `AwaitingBrowserRedirect`. -/
theorem step_startCount (s : Session) (e : Event) :
    (step s e).2.countP isListenerStart ≤ 1 ∧
    ((step s e).2.countP isListenerStart ≠ 0 →
      phase s.proto < 3 ∧ 3 ≤ phase (step s e).1.proto) := by
  cases e with
  | startCalled entropy port =>
      cases h1 : generateRandomString entropy pkceRandomSize <;>
        cases h2 : generateRandomString (entropy.drop pkceRandomSize) csrfRandomSize <;>
        cases hp : s.proto <;>
        simp_all [step, isListenerStart, phase]
  | wellKnownReply o =>
      cases hp : s.proto <;> simp only [step, hp] <;>
        try simp_all [isListenerStart, phase]
      by_cases hc : s._clientId = "" ∧ (resolveWellKnown s._serverUrl o).registration_endpoint.isSome = true
      · rw [if_pos hc]; simp_all [isListenerStart, phase]
      · rw [if_neg hc]; simp_all [enterBrowserRedirect, isListenerStart, phase]
  | registrationReply cid sec =>
      cases hp : s.proto <;>
        simp_all [step, enterBrowserRedirect, isListenerStart, phase]
  | callbackReceived cb =>
      cases hp : s.proto <;> simp only [step, hp] <;>
        try simp_all [isListenerStart, phase]
      cases hcode : cb.code <;> cases herr : cb.error <;>
        simp only [hcode, herr] <;>
        try simp_all [isListenerStart, phase]
      by_cases hcs : cb.state = some s._state
      · rw [if_pos hcs]; simp_all [isListenerStart, phase]
      · rw [if_neg hcs]; simp_all [isListenerStart, phase]
  | tokenReply r =>
      cases r with
      | success tok rtk uid =>
          cases uid <;> cases hp : s.proto <;>
            simp_all [step, isListenerStart, phase]
      | failure err =>
          cases hp : s.proto <;> simp_all [step, isListenerStart, phase]
  | identityReply user =>
      cases user <;> cases hp : s.proto <;> simp_all [step, isListenerStart, phase]
  | refreshCalled rt =>
      cases hp : s.proto <;> simp_all [step, isListenerStart, phase]
  | destroyCalled =>
      cases hL : s.listenerOpen <;> cases hp : s.proto <;>
        simp_all [step, isListenerStart, phase]

/-- One step emits at most one discovery GET, and only on the transition
that leaves `Idle` for `ResolvingDiscovery`. -/
theorem step_discoveryCount (s : Session) (e : Event) :
    (step s e).2.countP isDiscoveryFetch ≤ 1 ∧
    ((step s e).2.countP isDiscoveryFetch ≠ 0 →
      phase s.proto < 1 ∧ 1 ≤ phase (step s e).1.proto) := by
  cases e with
  | startCalled entropy port =>
      cases h1 : generateRandomString entropy pkceRandomSize <;>
        cases h2 : generateRandomString (entropy.drop pkceRandomSize) csrfRandomSize <;>
        cases hp : s.proto <;>
        simp_all [step, isDiscoveryFetch, phase]
  | wellKnownReply o =>
      cases hp : s.proto <;> simp only [step, hp] <;>
        try simp_all [isDiscoveryFetch, phase]
      by_cases hc : s._clientId = "" ∧ (resolveWellKnown s._serverUrl o).registration_endpoint.isSome = true
      · rw [if_pos hc]; simp_all [isDiscoveryFetch, phase]
      · rw [if_neg hc]; simp_all [enterBrowserRedirect, isDiscoveryFetch, phase]
  | registrationReply cid sec =>
      cases hp : s.proto <;>
        simp_all [step, enterBrowserRedirect, isDiscoveryFetch, phase]
  | callbackReceived cb =>
      cases hp : s.proto <;> simp only [step, hp] <;>
        try simp_all [isDiscoveryFetch, phase]
      cases hcode : cb.code <;> cases herr : cb.error <;>
        simp only [hcode, herr] <;>
        try simp_all [isDiscoveryFetch, phase]
      by_cases hcs : cb.state = some s._state
      · rw [if_pos hcs]; simp_all [isDiscoveryFetch, phase]
      · rw [if_neg hcs]; simp_all [isDiscoveryFetch, phase]
  | tokenReply r =>
      cases r with
      | success tok rtk uid =>
          cases uid <;> cases hp : s.proto <;>
            simp_all [step, isDiscoveryFetch, phase]
      | failure err =>
          cases hp : s.proto <;> simp_all [step, isDiscoveryFetch, phase]
  | identityReply user =>
      cases user <;> cases hp : s.proto <;> simp_all [step, isDiscoveryFetch, phase]
  | refreshCalled rt =>
      cases hp : s.proto <;> simp_all [step, isDiscoveryFetch, phase]
  | destroyCalled =>
      cases hL : s.listenerOpen <;> cases hp : s.proto <;>
        simp_all [step, isDiscoveryFetch, phase]

/-- A run's effect count for a classifier that fires at most once per step
and only on a step crossing the phase threshold `lo` is at most one, and
zero from phase `lo` on. -/
theorem run_count_le (p : Effect → Bool) (lo : Nat)
    (hstep : ∀ s e, (step s e).2.countP p ≤ 1 ∧
      ((step s e).2.countP p ≠ 0 → phase s.proto < lo ∧ lo ≤ phase (step s e).1.proto)) :
    ∀ (es : List Event) (s : Session),
      (run s es).2.countP p ≤ if phase s.proto < lo then 1 else 0 := by
  intro es
  induction es with
  | nil => intro s; simp [run]
  | cons e es ih =>
      intro s
      have hrec := ih (step s e).1
      have hmono := step_phase_mono s e
      have hst := hstep s e
      simp only [run, List.countP_append]
      by_cases h0 : (step s e).2.countP p = 0
      · rw [h0]
        simp only [Nat.zero_add]
        by_cases hlo : phase s.proto < lo
        · simp only [if_pos hlo]
          exact le_trans hrec (by split <;> omega)
        · have : ¬ phase (step s e).1.proto < lo := by omega
          simp only [if_neg hlo]
          simpa [if_neg this] using hrec
      · obtain ⟨hle, htrig⟩ := hst
        obtain ⟨hlt, hge⟩ := htrig h0
        have hnlt : ¬ phase (step s e).1.proto < lo := by omega
        rw [if_pos hlt]
        have hr0 : (run (step s e).1 es).2.countP p = 0 := by
          rw [if_neg hnlt] at hrec
          omega
        omega

theorem run_listenerInv (es : List Event) :
    ∀ s : Session, ListenerInv s → ListenerInv (run s es).1 := by
  induction es with
  | nil => intro s h; simpa [run] using h
  | cons e es ih =>
      intro s h
      simpa [run] using ih (step s e).1 (step_listenerInv s e h)

theorem run_phase_mono (es : List Event) :
    ∀ s : Session, phase s.proto ≤ phase (run s es).1.proto := by
  induction es with
  | nil => intro s; simp [run]
  | cons e es ih =>
      intro s
      have h1 := step_phase_mono s e
      have h2 := ih (step s e).1
      simp only [run]
      omega

/-- Socket balance over a whole run: closes emitted plus the final open
socket equal starts emitted plus the initial open socket. -/
theorem run_close_balance (es : List Event) :
    ∀ s : Session, ListenerInv s →
      (run s es).2.countP isListenerClose + (if (run s es).1.listenerOpen then 1 else 0)
        = (run s es).2.countP isListenerStart + (if s.listenerOpen then 1 else 0) := by
  induction es with
  | nil => intro s h; simp [run]
  | cons e es ih =>
      intro s h
      have h1 := step_close_balance s e h
      have h2 := ih (step s e).1 (step_listenerInv s e h)
      simp only [run, List.countP_append]
      omega

theorem step_serviced_phase (s : Session) (e : Event)
    (h : servicedCallback s e = true) :
    phase s.proto = 3 ∧ 4 ≤ phase (step s e).1.proto := by
  cases e <;> simp [servicedCallback] at h
  rename_i cb
  refine ⟨by simp [h, phase], ?_⟩
  simp only [step, h]
  cases hcode : cb.code <;> cases herr : cb.error <;>
    simp only [hcode, herr] <;> try simp [phase]
  by_cases hcs : cb.state = some s._state <;> simp [hcs, phase]

/-- At most one callback is serviced per run. -/
theorem servicedCount_le (es : List Event) :
    ∀ s : Session, servicedCount s es ≤ if phase s.proto ≤ 3 then 1 else 0 := by
  induction es with
  | nil => intro s; simp [servicedCount]
  | cons e es ih =>
      intro s
      have hrec := ih (step s e).1
      have hmono := step_phase_mono s e
      simp only [servicedCount]
      by_cases hs : servicedCallback s e = true
      · obtain ⟨h3, h4⟩ := step_serviced_phase s e hs
        have hn : ¬ phase (step s e).1.proto ≤ 3 := by omega
        rw [if_neg hn] at hrec
        rw [if_pos hs, if_pos (by omega : phase s.proto ≤ 3)]
        omega
      · rw [if_neg hs]
        by_cases h3 : phase s.proto ≤ 3
        · rw [if_pos h3]
          exact le_trans (by simpa using hrec) (by split <;> omega)
        · have hn : ¬ phase (step s e).1.proto ≤ 3 := by omega
          rw [if_neg hn] at hrec
          rw [if_neg h3]
          omega

/-- Once the session is terminal (`Finalized` or destroyed) with the socket
closed, a step changes nothing observable: it emits no flow-progress
notification and no network, browser or listener activity. -/
theorem step_terminal_quiet (s : Session) (e : Event)
    (h6 : 6 ≤ phase s.proto) (hL : s.listenerOpen = false) :
    6 ≤ phase (step s e).1.proto ∧ (step s e).1.listenerOpen = false ∧
      ∀ x ∈ (step s e).2, isFlowEffect x = false := by
  cases hp : s.proto <;> rw [hp] at h6 <;> simp only [phase] at h6 <;> try omega
  all_goals cases e <;> simp_all [step, phase, isFlowEffect]

/-- A terminal session stays quiet over any further run. -/
theorem run_terminal_quiet (es : List Event) :
    ∀ s : Session, 6 ≤ phase s.proto → s.listenerOpen = false →
      ∀ x ∈ (run s es).2, isFlowEffect x = false := by
  induction es with
  | nil => intro s _ _ x hx; simp [run] at hx
  | cons e es ih =>
      intro s h6 hL x hx
      obtain ⟨h6s, hLs, hq⟩ := step_terminal_quiet s e h6 hL
      simp only [run, List.mem_append] at hx
      rcases hx with hx | hx
      · exact hq x hx
      · exact ih (step s e).1 h6s hLs x hx

theorem step_emitInv (s : Session) (e : Event) (r f : Nat) (h : EmitInv s r f) :
    EmitInv (step s e).1 (r + (step s e).2.countP isResultSignal)
      (f + (step s e).2.countP isRefreshSignal) := by
  cases e with
  | startCalled entropy port =>
      cases h1 : generateRandomString entropy pkceRandomSize <;>
        cases h2 : generateRandomString (entropy.drop pkceRandomSize) csrfRandomSize <;>
        cases hf : s._isRefreshingToken <;> cases hp : s.proto <;>
        simp_all [step, EmitInv, isResultSignal, isRefreshSignal] <;> omega
  | wellKnownReply o =>
      cases hf : s._isRefreshingToken <;> cases hp : s.proto <;>
        simp only [step, hp] <;>
        try (simp_all [EmitInv, isResultSignal, isRefreshSignal]; try omega)
      all_goals
        by_cases hc : s._clientId = "" ∧ (resolveWellKnown s._serverUrl o).registration_endpoint.isSome = true
      all_goals
        first
        | (rw [if_pos hc]; simp_all [EmitInv, isResultSignal, isRefreshSignal])
        | (rw [if_neg hc]; simp_all [enterBrowserRedirect, EmitInv, isResultSignal, isRefreshSignal])
  | registrationReply cid sec =>
      cases hf : s._isRefreshingToken <;> cases hp : s.proto <;>
        simp_all [step, enterBrowserRedirect, EmitInv, isResultSignal, isRefreshSignal] <;>
        omega
  | callbackReceived cb =>
      cases hf : s._isRefreshingToken <;> cases hp : s.proto <;>
        simp only [step, hp] <;>
        try (simp_all [EmitInv, isResultSignal, isRefreshSignal]; try omega)
      all_goals
        cases hcode : cb.code <;> cases herr : cb.error <;>
          simp only [hcode, herr] <;>
          try simp_all [EmitInv, isResultSignal, isRefreshSignal]
      all_goals
        by_cases hcs : cb.state = some s._state <;>
          simp_all [EmitInv, isResultSignal, isRefreshSignal]
  | tokenReply rr =>
      cases rr with
      | success tok rtk uid =>
          cases uid <;> cases hf : s._isRefreshingToken <;> cases hp : s.proto <;>
            simp_all [step, EmitInv, isResultSignal, isRefreshSignal] <;> omega
      | failure err =>
          cases hf : s._isRefreshingToken <;> cases hp : s.proto <;>
            simp_all [step, EmitInv, isResultSignal, isRefreshSignal] <;> omega
  | identityReply user =>
      cases user <;> cases hf : s._isRefreshingToken <;> cases hp : s.proto <;>
        simp_all [step, EmitInv, isResultSignal, isRefreshSignal] <;> omega
  | refreshCalled rt =>
      cases hf : s._isRefreshingToken <;> cases hp : s.proto <;>
        simp_all [step, EmitInv, isResultSignal, isRefreshSignal] <;> omega
  | destroyCalled =>
      cases hL : s.listenerOpen <;> cases hf : s._isRefreshingToken <;> cases hp : s.proto <;>
        simp_all [step, EmitInv, isResultSignal, isRefreshSignal] <;> omega

theorem run_emitInv (es : List Event) :
    ∀ (s : Session) (r f : Nat), EmitInv s r f →
      EmitInv (run s es).1 (r + (run s es).2.countP isResultSignal)
        (f + (run s es).2.countP isRefreshSignal) := by
  induction es with
  | nil => intro s r f h; simpa [run] using h
  | cons e es ih =>
      intro s r f h
      have h1 := step_emitInv s e r f h
      have h2 := ih (step s e).1 (r + (step s e).2.countP isResultSignal)
        (f + (step s e).2.countP isRefreshSignal) h1
      simp only [run, List.countP_append]
      have e1 : r + ((step s e).2.countP isResultSignal + (run (step s e).1 es).2.countP isResultSignal)
          = r + (step s e).2.countP isResultSignal + (run (step s e).1 es).2.countP isResultSignal := by
        omega
      have e2 : f + ((step s e).2.countP isRefreshSignal + (run (step s e).1 es).2.countP isRefreshSignal)
          = f + (step s e).2.countP isRefreshSignal + (run (step s e).1 es).2.countP isRefreshSignal := by
        omega
      rw [e1, e2]
      exact h2

theorem step_refreshPath (s : Session) (e : Event)
    (h : RefreshPath s) (hL : s.listenerOpen = false) :
    RefreshPath (step s e).1 ∧ (step s e).1.listenerOpen = false ∧
      (step s e).2.countP isTokenPost = 0 ∧
      (step s e).2.countP isInteractiveActivity = 0 := by
  have hcases : (∃ rt, s.proto = .refreshing rt) ∨ (∃ r0, s.proto = .finalized r0) ∨
      s.proto = .destroyed := h
  rcases hcases with ⟨rt, hp⟩ | ⟨r0, hp⟩ | hp <;>
    cases e <;>
    first
    | (rename_i rr; cases rr <;>
        simp_all [step, RefreshPath, isTokenPost, isInteractiveActivity, isDiscoveryFetch,
          isOpenBrowser, isListenerStart, isListenerClose, isIdentityLookup])
    | simp_all [step, RefreshPath, isTokenPost, isInteractiveActivity, isDiscoveryFetch,
        isOpenBrowser, isListenerStart, isListenerClose, isIdentityLookup]

theorem run_refreshPath (es : List Event) :
    ∀ s : Session, RefreshPath s → s.listenerOpen = false →
      (run s es).2.countP isTokenPost = 0 ∧
      (run s es).2.countP isInteractiveActivity = 0 := by
  induction es with
  | nil => intro s _ _; simp [run]
  | cons e es ih =>
      intro s h hL
      obtain ⟨h1, h2, h3, h4⟩ := step_refreshPath s e h hL
      obtain ⟨h5, h6⟩ := ih (step s e).1 h1 h2
      simp only [run, List.countP_append]
      omega

theorem step_postExchange (s : Session) (e : Event) (h : PostExchangePath s) :
    PostExchangePath (step s e).1 ∧ (step s e).2.countP isIdentityLookup = 0 := by
  rcases h with ⟨a, b, hp⟩ | ⟨r0, hp⟩ | hp <;>
    cases e <;>
    first
    | (rename_i rr; cases rr <;>
        simp_all [step, PostExchangePath, isIdentityLookup])
    | simp_all [step, PostExchangePath, isIdentityLookup]

theorem run_postExchange (es : List Event) :
    ∀ s : Session, PostExchangePath s →
      (run s es).2.countP isIdentityLookup = 0 := by
  induction es with
  | nil => intro s _; simp [run]
  | cons e es ih =>
      intro s h
      obtain ⟨h1, h2⟩ := step_postExchange s e h
      have h3 := ih (step s e).1 h1
      simp only [run, List.countP_append]
      omega

theorem step_no_notSupported (s : Session) (e : Event) :
    (step s e).2.countP isNotSupportedResult = 0 := by
  cases e with
  | startCalled entropy port =>
      cases h1 : generateRandomString entropy pkceRandomSize <;>
        cases h2 : generateRandomString (entropy.drop pkceRandomSize) csrfRandomSize <;>
        cases hp : s.proto <;>
        simp_all [step, isNotSupportedResult]
  | wellKnownReply o =>
      cases hp : s.proto <;> simp only [step, hp] <;>
        try simp_all [isNotSupportedResult]
      by_cases hc : s._clientId = "" ∧ (resolveWellKnown s._serverUrl o).registration_endpoint.isSome = true
      · rw [if_pos hc]; simp [isNotSupportedResult]
      · rw [if_neg hc]; simp [enterBrowserRedirect, isNotSupportedResult]
  | registrationReply cid sec =>
      cases hp : s.proto <;>
        simp_all [step, enterBrowserRedirect, isNotSupportedResult]
  | callbackReceived cb =>
      cases hp : s.proto <;> simp only [step, hp] <;>
        try simp_all [isNotSupportedResult]
      cases hcode : cb.code <;> cases herr : cb.error <;>
        simp only [hcode, herr] <;>
        try simp_all [isNotSupportedResult]
      by_cases hcs : cb.state = some s._state <;>
        simp_all [isNotSupportedResult]
  | tokenReply rr =>
      cases rr with
      | success tok rtk uid =>
          cases uid <;> cases hp : s.proto <;>
            simp_all [step, isNotSupportedResult]
      | failure err =>
          cases hp : s.proto <;> simp_all [step, isNotSupportedResult]
  | identityReply user =>
      cases user <;> cases hp : s.proto <;> simp_all [step, isNotSupportedResult]
  | refreshCalled rt =>
      cases hp : s.proto <;> simp_all [step, isNotSupportedResult]
  | destroyCalled =>
      cases hL : s.listenerOpen <;> cases hp : s.proto <;>
        simp_all [step, isNotSupportedResult]

theorem run_no_notSupported (es : List Event) :
    ∀ s : Session, (run s es).2.countP isNotSupportedResult = 0 := by
  induction es with
  | nil => intro s; simp [run]
  | cons e es ih =>
      intro s
      have h1 := step_no_notSupported s e
      have h2 := ih (step s e).1
      simp only [run, List.countP_append]
      omega

theorem flowEffect_of_tokenPost (x : Effect) (h : isTokenPost x = true) :
    isFlowEffect x = true := by
  cases x <;> simp_all [isTokenPost, isFlowEffect]

theorem quiet_no_tokenPost (l : List Effect)
    (h : ∀ x ∈ l, isFlowEffect x = false) : l.countP isTokenPost = 0 := by
  rw [List.countP_eq_zero]
  intro a ha hta
  have := flowEffect_of_tokenPost a hta
  have := h a ha
  simp_all

/-! ## Claim theorems -/

/-- C1: a callback whose `state` does not equal the session's issued
CsrfState drives the session to the `Error` terminal state, with no token
exchange in that step nor in any later step of the attempt. -/
theorem csrf_mismatch_no_token_exchange (s : Session) (cb : Callback)
    (haw : s.proto = .awaitingBrowserRedirect)
    (hmm : cb.state ≠ some s._state) :
    (step s (.callbackReceived cb)).1.proto = .finalized .Error ∧
    (step s (.callbackReceived cb)).2.countP isTokenPost = 0 ∧
    ∀ es, (run (step s (.callbackReceived cb)).1 es).2.countP isTokenPost = 0 := by
  have hstep : step s (.callbackReceived cb)
      = ({ s with proto := .finalized .Error, listenerOpen := false },
         [.listenerClose, .result .Error "" "" ""]) := by
    simp only [step, haw]
    cases hcode : cb.code <;> cases herr : cb.error <;>
      simp only [hcode, herr] <;> try rfl
    rw [if_neg hmm]
  rw [hstep]
  refine ⟨rfl, by simp [isTokenPost], ?_⟩
  intro es
  exact quiet_no_tokenPost _ (run_terminal_quiet es _ (by simp [phase]) rfl)

/-- C2: the `code_challenge` carried by `authorisationLink()` is the
URL-safe unpadded base64 encoding of the SHA-256 digest of the attempt's
code verifier, and the `code_verifier` of the token exchange triggered by
the completing callback is that same verifier. -/
theorem pkce_challenge_matches_verifier (s : Session) (c : String)
    (haw : s.proto = .awaitingBrowserRedirect) :
    ("code_challenge", base64UrlNoPad (sha256 (strBytes s._pkceCodeVerifier)))
        ∈ (authorisationLink s).2 ∧
    ("code_challenge_method", "S256") ∈ (authorisationLink s).2 ∧
    (step s (.callbackReceived { code := some c, state := some s._state, error := none })).2
        = [.listenerClose, .tokenPost s._tokenEndpoint (codeExchangeBody s c)] ∧
    ("code_verifier", s._pkceCodeVerifier) ∈ codeExchangeBody s c := by
  refine ⟨by simp [authorisationLink, codeChallenge], by simp [authorisationLink], ?_, ?_⟩
  · simp [step, haw]
  · simp [codeExchangeBody]

/-- C4: a failed discovery fetch — whatever the failure — substitutes the
fallback document with the fixed relative endpoints under the server base
URL, proceeds to the browser step rather than any `Error` terminal state,
emits no `result` signal, and no discovery fetch ever happens again in the
attempt. -/
theorem discovery_failure_uses_fallback (s : Session) (f : FetchFailure)
    (h : s.proto = .resolvingDiscovery) :
    (step s (.wellKnownReply (.failure f))).1._authEndpoint
        = urlJoin s._serverUrl fallbackAuthPath ∧
    (step s (.wellKnownReply (.failure f))).1._tokenEndpoint
        = urlJoin s._serverUrl fallbackTokenPath ∧
    (step s (.wellKnownReply (.failure f))).1.proto = .awaitingBrowserRedirect ∧
    (step s (.wellKnownReply (.failure f))).2.countP isResultSignal = 0 ∧
    ∀ es, (run (step s (.wellKnownReply (.failure f))).1 es).2.countP isDiscoveryFetch = 0 := by
  have hstep1 : (step s (.wellKnownReply (.failure f))).1
      = (enterBrowserRedirect { s with
          _authEndpoint := urlJoin s._serverUrl fallbackAuthPath
          _tokenEndpoint := urlJoin s._serverUrl fallbackTokenPath
          _registrationEndpoint := none }).1 := by
    simp only [step, h]
    rw [if_neg (by simp [resolveWellKnown, fallbackWellKnown])]
    simp [resolveWellKnown, fallbackWellKnown]
  have hstep2 : (step s (.wellKnownReply (.failure f))).2.countP isResultSignal = 0 := by
    simp only [step, h]
    rw [if_neg (by simp [resolveWellKnown, fallbackWellKnown])]
    simp [enterBrowserRedirect, isResultSignal]
  refine ⟨by rw [hstep1]; simp [enterBrowserRedirect],
          by rw [hstep1]; simp [enterBrowserRedirect],
          by rw [hstep1]; simp [enterBrowserRedirect],
          hstep2, ?_⟩
  intro es
  have hb := run_count_le isDiscoveryFetch 1 step_discoveryCount es
      (step s (.wellKnownReply (.failure f))).1
  have hph : (step s (.wellKnownReply (.failure f))).1.proto = .awaitingBrowserRedirect := by
    rw [hstep1]; simp [enterBrowserRedirect]
  rw [hph] at hb
  simpa [phase] using hb

/-- C5: a code-exchange token response lacking `user_id` triggers exactly
one identity lookup and no more before finalization; a response carrying
`user_id`, and any response to a refresh, triggers none. -/
theorem identity_lookup_exactly_when_needed :
    (∀ (s : Session) (tok : String) (rtk : Option String), s.proto = .exchangingToken →
      (step s (.tokenReply (.success tok rtk none))).2 = [.identityLookup] ∧
      (step s (.tokenReply (.success tok rtk none))).1.proto
          = .resolvingIdentity tok (rtk.getD "") ∧
      ∀ es, (run (step s (.tokenReply (.success tok rtk none))).1 es).2.countP
          isIdentityLookup = 0) ∧
    (∀ (s : Session) (tok u : String) (rtk : Option String), s.proto = .exchangingToken →
      (step s (.tokenReply (.success tok rtk (some u)))).2.countP isIdentityLookup = 0) ∧
    (∀ (s : Session) (rt0 : String) (rr : TokenReply), s.proto = .refreshing rt0 →
      (step s (.tokenReply rr)).2.countP isIdentityLookup = 0) := by
  refine ⟨?_, ?_, ?_⟩
  · intro s tok rtk h
    refine ⟨by simp [step, h], by simp [step, h], ?_⟩
    intro es
    apply run_postExchange
    refine Or.inl ⟨tok, rtk.getD "", ?_⟩
    simp [step, h]
  · intro s tok u rtk h
    simp [step, h, isIdentityLookup]
  · intro s rt0 rr h
    cases rr <;> simp [step, h, isIdentityLookup]

/-- C3: when an interactive attempt reaches a terminal state, the `result`
signal has been emitted exactly once, it never carries `NotSupported`, and
afterwards the session emits no further flow-progress notification and
performs no further network, browser or listener activity. -/
theorem result_emitted_exactly_once (u d ci cs : String) (es : List Event) (r0 : OAuthResult)
    (hfin : (run (initSession u d ci cs) es).1.proto = .finalized r0)
    (hflag : (run (initSession u d ci cs) es).1._isRefreshingToken = false) :
    (run (initSession u d ci cs) es).2.countP isResultSignal = 1 ∧
    (run (initSession u d ci cs) es).2.countP isNotSupportedResult = 0 ∧
    ∀ (es2 : List Event) (x : Effect),
      x ∈ (run (run (initSession u d ci cs) es).1 es2).2 → isFlowEffect x = false := by
  have hinv := run_emitInv es (initSession u d ci cs) 0 0
    (by simp [EmitInv, initSession])
  unfold EmitInv at hinv
  rw [hfin, hflag] at hinv
  simp only [Nat.zero_add, if_false, Bool.false_eq_true] at hinv
  have hLI := run_listenerInv es (initSession u d ci cs)
    (by simp [ListenerInv, initSession])
  unfold ListenerInv at hLI
  rw [hfin] at hLI
  have hopen : (run (initSession u d ci cs) es).1.listenerOpen = false := by
    cases h : (run (initSession u d ci cs) es).1.listenerOpen
    · rfl
    · exact absurd (hLI.mp h) (by simp)
  refine ⟨hinv.1, run_no_notSupported es _, ?_⟩
  intro es2 x hx
  exact run_terminal_quiet es2 _ (by rw [hfin]; simp [phase]) hopen x hx

/-- C6: `refreshAuthentication(R)` issues exactly one token POST, whose
body carries `grant_type=refresh_token` and `refresh_token=R`, and the
whole refresh performs no discovery fetch, browser opening, listener or
identity-lookup activity. -/
theorem refresh_single_token_post (u d ci cs R : String) (es : List Event) :
    (run (initSession u d ci cs) (.refreshCalled R :: es)).2.filter isTokenPost
        = [.tokenPost (urlJoin u fallbackTokenPath) (refreshBody (initSession u d ci cs) R)] ∧
    ("grant_type", "refresh_token") ∈ refreshBody (initSession u d ci cs) R ∧
    ("refresh_token", R) ∈ refreshBody (initSession u d ci cs) R ∧
    (run (initSession u d ci cs) (.refreshCalled R :: es)).2.countP isInteractiveActivity = 0 := by
  have hstep : step (initSession u d ci cs) (.refreshCalled R)
      = ({ initSession u d ci cs with _isRefreshingToken := true, proto := .refreshing R },
         [.tokenPost (urlJoin u fallbackTokenPath) (refreshBody (initSession u d ci cs) R)]) := by
    simp [step, initSession, refreshBody]
  have hrun : run (initSession u d ci cs) (.refreshCalled R :: es)
      = ((run (step (initSession u d ci cs) (.refreshCalled R)).1 es).1,
         (step (initSession u d ci cs) (.refreshCalled R)).2
           ++ (run (step (initSession u d ci cs) (.refreshCalled R)).1 es).2) := rfl
  have hrp : RefreshPath (step (initSession u d ci cs) (.refreshCalled R)).1 := by
    rw [hstep]; exact Or.inl ⟨R, rfl⟩
  have hL : (step (initSession u d ci cs) (.refreshCalled R)).1.listenerOpen = false := by
    rw [hstep]; rfl
  obtain ⟨hrest1, hrest2⟩ := run_refreshPath es _ hrp hL
  have hnil : (run (step (initSession u d ci cs) (.refreshCalled R)).1 es).2.filter isTokenPost
      = [] := by
    rw [List.countP_eq_zero] at hrest1
    rw [List.filter_eq_nil_iff]
    intro a ha
    exact hrest1 a ha
  refine ⟨?_, by simp [refreshBody], by simp [refreshBody], ?_⟩
  · rw [hrun]
    rw [List.filter_append]
    rw [hnil]
    rw [List.append_nil]
    rw [hstep]
    simp [isTokenPost]
  · rw [hrun]
    rw [List.countP_append]
    rw [hrest2]
    rw [hstep]
    simp [isInteractiveActivity, isDiscoveryFetch, isOpenBrowser, isListenerStart,
      isListenerClose, isIdentityLookup]

/-- C7: per attempt, at most one loopback callback is serviced, a callback
arriving in any other state is ignored outright, the listening socket is
started at most once, and closes balance starts — in particular, once the
attempt is terminal the socket has been closed exactly as often as it was
opened, on every exit path. -/
theorem loopback_single_service_and_close (u d ci cs : String) (es : List Event) :
    servicedCount (initSession u d ci cs) es ≤ 1 ∧
    (run (initSession u d ci cs) es).2.countP isListenerStart ≤ 1 ∧
    (run (initSession u d ci cs) es).2.countP isListenerClose
        + (if (run (initSession u d ci cs) es).1.listenerOpen then 1 else 0)
      = (run (initSession u d ci cs) es).2.countP isListenerStart ∧
    (6 ≤ phase (run (initSession u d ci cs) es).1.proto →
      (run (initSession u d ci cs) es).2.countP isListenerClose
        = (run (initSession u d ci cs) es).2.countP isListenerStart) ∧
    ∀ (s : Session) (cb : Callback), s.proto ≠ .awaitingBrowserRedirect →
      step s (.callbackReceived cb) = (s, []) := by
  have hserv := servicedCount_le es (initSession u d ci cs)
  have hstart := run_count_le isListenerStart 3 step_startCount es (initSession u d ci cs)
  have hbal := run_close_balance es (initSession u d ci cs)
    (by simp [ListenerInv, initSession])
  have hLI := run_listenerInv es (initSession u d ci cs)
    (by simp [ListenerInv, initSession])
  simp only [initSession, phase] at hserv hstart
  rw [if_pos (by omega)] at hserv
  rw [if_pos (by omega)] at hstart
  have hbal0 : (run (initSession u d ci cs) es).2.countP isListenerClose
        + (if (run (initSession u d ci cs) es).1.listenerOpen then 1 else 0)
      = (run (initSession u d ci cs) es).2.countP isListenerStart := by
    simpa [initSession] using hbal
  refine ⟨hserv, hstart, hbal0, ?_, ?_⟩
  · intro h6
    have hopen : (run (initSession u d ci cs) es).1.listenerOpen = false := by
      unfold ListenerInv at hLI
      cases h : (run (initSession u d ci cs) es).1.listenerOpen
      · rfl
      · rw [hLI.mp h] at h6
        simp [phase] at h6
    rw [hopen] at hbal0
    simpa using hbal0
  · intro s cb h
    cases hp : s.proto <;> simp_all [step]

/-- C8: the random-token generator returns exactly the requested number of
bytes, drawn from the environment's secure stream, or nothing; a start
whose randomness cannot be supplied aborts immediately with the `Error`
result, and a start that proceeds carries a verifier and CsrfState encoded
from exactly the requested fresh bytes. -/
theorem random_token_contract :
    (∀ (entropy : List Nat) (size : Nat) (bs : List Nat),
      generateRandomString entropy size = some bs →
      bs.length = size ∧ bs = (entropy.take size).map (fun b => b % 256)) ∧
    (∀ (s : Session) (entropy : List Nat) (port : Nat), s.proto = .idle →
      (generateRandomString entropy pkceRandomSize = none ∨
        generateRandomString (entropy.drop pkceRandomSize) csrfRandomSize = none) →
      (step s (.startCalled entropy port)).1.proto = .finalized .Error ∧
      (step s (.startCalled entropy port)).2 = [.result .Error "" "" ""]) ∧
    (∀ (s : Session) (entropy : List Nat) (port : Nat) (pk st : List Nat), s.proto = .idle →
      generateRandomString entropy pkceRandomSize = some pk →
      generateRandomString (entropy.drop pkceRandomSize) csrfRandomSize = some st →
      (step s (.startCalled entropy port)).1.proto = .resolvingDiscovery ∧
      (step s (.startCalled entropy port)).1._pkceCodeVerifier = base64UrlNoPad pk ∧
      (step s (.startCalled entropy port)).1._state = base64UrlNoPad st) := by
  refine ⟨?_, ?_, ?_⟩
  · intro entropy size bs h
    unfold generateRandomString at h
    by_cases hle : size ≤ entropy.length
    · rw [if_pos hle] at h
      obtain rfl : bs = (entropy.take size).map (fun b => b % 256) := by
        exact (Option.some.injEq _ _ ▸ h.symm).symm ▸ rfl
      refine ⟨?_, rfl⟩
      simp [List.length_take, Nat.min_eq_left hle]
    · rw [if_neg hle] at h
      exact absurd h (by simp)
  · intro s entropy port hidle hnone
    rcases hnone with hn | hn
    · constructor <;> simp [step, hidle, hn]
    · cases hpk : generateRandomString entropy pkceRandomSize <;>
        constructor <;> simp [step, hidle, hpk, hn]
  · intro s entropy port pk st hidle hpk hst
    refine ⟨?_, ?_, ?_⟩ <;> simp [step, hidle, hpk, hst]

/-- C9: a refresh delivers its outcome through `refreshFinished` on
success and `refreshError` on failure — never through the interactive
`result` signal — and `_isRefreshingToken` is set exactly on the refresh
path among the live states. -/
theorem refresh_outcome_signals (u d ci cs R : String) (rr : TokenReply) (es : List Event) :
    (run (initSession u d ci cs) [.refreshCalled R, .tokenReply rr]).2.countP isResultSignal
        = 0 ∧
    ((run (initSession u d ci cs) [.refreshCalled R, .tokenReply rr]).2.filter isRefreshSignal
      = match rr with
        | .success tok rtk _ => [.refreshFinished tok (rtk.getD R)]
        | .failure err => [.refreshError err]) ∧
    (∀ rt : String, (run (initSession u d ci cs) es).1.proto = .refreshing rt →
      (run (initSession u d ci cs) es).1._isRefreshingToken = true) ∧
    (phase (run (initSession u d ci cs) es).1.proto ≤ 5 →
      (∀ rt : String, (run (initSession u d ci cs) es).1.proto ≠ .refreshing rt) →
      (run (initSession u d ci cs) es).1._isRefreshingToken = false) := by
  have hinv := run_emitInv es (initSession u d ci cs) 0 0
    (by simp [EmitInv, initSession])
  unfold EmitInv at hinv
  refine ⟨?_, ?_, ?_, ?_⟩
  · cases rr <;>
      simp [run, step, initSession, isResultSignal]
  · cases rr <;>
      simp [run, step, initSession, isRefreshSignal]
  · intro rt hprt
    rw [hprt] at hinv
    exact hinv.1
  · intro h5 hnr
    cases hp : (run (initSession u d ci cs) es).1.proto <;> rw [hp] at hinv
    · exact hinv.1
    · exact hinv.1
    · exact hinv.1
    · exact hinv.1
    · exact hinv.1
    · exact hinv.1
    · exact absurd hp (hnr _)
    · rw [hp] at h5; simp [phase] at h5
    · rw [hp] at h5; simp [phase] at h5

end OwncloudOAuth

namespace NewVersionAvailableDialog

/-- C10: each user choice runs the slot that emits exactly its
choice-specific signal followed by `finished`, so `finished` is emitted on
every choice path. -/
theorem dialog_choice_emits_signal_then_finished (c : UserChoice) :
    slotFor c = [choiceSignal c, .finished] ∧
    (slotFor c).count (choiceSignal c) = 1 ∧
    (slotFor c).count .finished = 1 := by
  cases c <;> decide

end NewVersionAvailableDialog

namespace OwncloudOAuth

/-! ## Witnesses -/

set_option maxRecDepth 4000 in
/-- The RFC 7636 appendix-B test vector, checking the modelled S256
derivation end to end. -/
theorem codeChallenge_rfc7636_vector :
    codeChallenge "dBjftJeZ4CVP-mB92K27uhbUJU1p1r_wW1gFWFOEjXk"
      = "E9Melhoa2OwvFrEMTJguCHaoeK1t8URWbuGJSstw-cM" := by
  decide

/-- Witness for C1: a concrete awaiting session rejecting a callback whose
`state` does not match. -/
theorem csrf_mismatch_no_token_exchange_witness :
    ((Callback.mk (some "ABC") (some "EVIL") none).state ≠ some wAwait._state) ∧
    (step wAwait (.callbackReceived (Callback.mk (some "ABC") (some "EVIL") none))).1.proto
      = .finalized .Error :=
  ⟨by decide,
   (csrf_mismatch_no_token_exchange wAwait (Callback.mk (some "ABC") (some "EVIL") none)
      rfl (by decide)).1⟩

/-- Witness for C2 at a concrete awaiting session. -/
theorem pkce_challenge_matches_verifier_witness :
    wAwait.proto = .awaitingBrowserRedirect ∧
    ("code_challenge", base64UrlNoPad (sha256 (strBytes wAwait._pkceCodeVerifier)))
      ∈ (authorisationLink wAwait).2 :=
  ⟨rfl, (pkce_challenge_matches_verifier wAwait "ABC" rfl).1⟩

set_option maxRecDepth 10000 in
/-- Witness for C3: a concrete run reaching `Finalized{Error}` has emitted
the `result` signal exactly once. -/
theorem result_emitted_exactly_once_witness :
    (run (initSession "https://example.test" "alice" "cid" "") esFinal).1.proto
      = .finalized .Error ∧
    (run (initSession "https://example.test" "alice" "cid" "") esFinal).2.countP
      isResultSignal = 1 :=
  ⟨by decide,
   (result_emitted_exactly_once "https://example.test" "alice" "cid" "" esFinal .Error
      (by decide) (by decide)).1⟩

/-- Witness for C4 at a concrete session and a simulated 500. -/
theorem discovery_failure_uses_fallback_witness :
    wResolving.proto = .resolvingDiscovery ∧
    (step wResolving (.wellKnownReply (.failure (.non2xx 500)))).1._authEndpoint
      = urlJoin wResolving._serverUrl fallbackAuthPath :=
  ⟨rfl, (discovery_failure_uses_fallback wResolving (.non2xx 500) rfl).1⟩

/-- Witness for C5: a concrete `user_id`-less exchange response triggers
the lookup; a concrete refresh response does not. -/
theorem identity_lookup_exactly_when_needed_witness :
    (step wExchanging (.tokenReply (.success "T" (some "R") none))).2 = [.identityLookup] ∧
    (step wRefreshing (.tokenReply (.failure "x"))).2.countP isIdentityLookup = 0 :=
  ⟨(identity_lookup_exactly_when_needed.1 wExchanging "T" (some "R") rfl).1,
   identity_lookup_exactly_when_needed.2.2 wRefreshing "R" (.failure "x") rfl⟩

set_option maxRecDepth 10000 in
/-- Witness for C7: along the concrete terminal run, the socket was closed
exactly as often as it was opened. -/
theorem loopback_single_service_and_close_witness :
    servicedCount (initSession "https://example.test" "alice" "cid" "") esFinal ≤ 1 ∧
    (run (initSession "https://example.test" "alice" "cid" "") esFinal).2.countP isListenerClose
      = (run (initSession "https://example.test" "alice" "cid" "") esFinal).2.countP
          isListenerStart :=
  ⟨(loopback_single_service_and_close "https://example.test" "alice" "cid" "" esFinal).1,
   (loopback_single_service_and_close "https://example.test" "alice" "cid" "" esFinal).2.2.2.1
      (by decide)⟩

/-- Witness for C8: the generator returns exactly the requested bytes on a
concrete stream, and a start with an empty stream aborts with `Error`. -/
theorem random_token_contract_witness :
    ((sampleEntropy.take pkceRandomSize).map (fun b => b % 256)).length = pkceRandomSize ∧
    (step wBase (.startCalled [] 0)).1.proto = .finalized .Error :=
  ⟨(random_token_contract.1 sampleEntropy pkceRandomSize
      ((sampleEntropy.take pkceRandomSize).map (fun b => b % 256)) (by decide)).1,
   (random_token_contract.2.1 wBase [] 0 rfl (Or.inl (by decide))).1⟩

/-- Witness for C9: after a concrete `refreshAuthentication`, the session
is refreshing with `_isRefreshingToken` set, and a concrete failed refresh
emits no `result` signal. -/
theorem refresh_outcome_signals_witness :
    (run (initSession "https://example.test" "alice" "cid" "")
        [.refreshCalled "R"]).1._isRefreshingToken = true ∧
    (run (initSession "https://example.test" "alice" "cid" "")
        [.refreshCalled "R", .tokenReply (.failure "x")]).2.countP isResultSignal = 0 :=
  ⟨(refresh_outcome_signals "https://example.test" "alice" "cid" "" "R" (.failure "x")
      [.refreshCalled "R"]).2.2.1 "R" (by decide),
   (refresh_outcome_signals "https://example.test" "alice" "cid" "" "R" (.failure "x")
      [.refreshCalled "R"]).1⟩

end OwncloudOAuth
